import Mathlib

/-!
Shallow embedding of the authentication and session-trust core of the
CulinaryHub backend (Express + sqlite).  Times are modelled as naturals
(milliseconds since epoch; the source stores ISO-8601 strings whose
lexicographic order agrees with chronological order, and compares
`Date.now()` values numerically).  The sqlite tables relevant to the
auth core (`users`, `otp_codes`) are modelled as lists of rows; each
SQL statement of the source is one atomic state transformation.
-/

namespace CulinaryHub

/-- The closed role set of the `users` table (`role TEXT`, values
`admin | editor | user` per the `DbUser` interface in `db.ts`). -/
inductive Role where
  | admin
  | editor
  | user
deriving DecidableEq, Repr

/-- A row of the `users` table (interface `DbUser` in `db.ts`). -/
structure DbUser where
  id : Nat
  name : String
  email : String
  password_hash : String
  role : Role
  created_at : Nat
deriving DecidableEq, Repr

/-- A row of the `otp_codes` table (interface `OtpCode` in `db.ts`);
`used` is the 0/1 flag, modelled as `Bool`. -/
structure OtpCode where
  id : Nat
  user_id : Nat
  code : String
  expires_at : Nat
  used : Bool
  created_at : Nat
deriving DecidableEq, Repr

/-- The sqlite database restricted to the auth core: the `users` and
`otp_codes` tables plus the AUTOINCREMENT counters for their ids. -/
structure Db where
  users : List DbUser
  otps : List OtpCode
  nextUserId : Nat
  nextOtpId : Nat
deriving DecidableEq, Repr

/-- `findUserByEmail` in `db.ts`:
`SELECT * FROM users WHERE email = ?` (binary comparison, first row). -/
def findUserByEmail (db : Db) (email : String) : Option DbUser :=
  db.users.find? (fun u => u.email = email)

/-- `findUserById` in `db.ts`: `SELECT * FROM users WHERE id = ?`. -/
def findUserById (db : Db) (id : Nat) : Option DbUser :=
  db.users.find? (fun u => u.id = id)

/-- Failure of a sqlite statement; the auth core only ever hits the
UNIQUE constraint on `users.email`. -/
inductive DbError where
  | uniqueEmail
deriving DecidableEq, Repr

/-- `createUser` in `db.ts`: `INSERT INTO users ...` followed by
`findUserById(this.lastID)`.  The INSERT fails when the UNIQUE
constraint on `email` is violated (binary comparison). -/
def createUser (db : Db) (name email password_hash : String) (role : Role)
    (createdAt : Nat) : Except DbError (DbUser × Db) :=
  if db.users.any (fun u => u.email = email) then
    .error .uniqueEmail
  else
    let u : DbUser := ⟨db.nextUserId, name, email, password_hash, role, createdAt⟩
    .ok (u, { db with users := db.users ++ [u], nextUserId := db.nextUserId + 1 })

/-- First statement of `createOtpCode` in `db.ts`:
`UPDATE otp_codes SET used = 1 WHERE user_id = ? AND used = 0`. -/
def invalidateOtps (otps : List OtpCode) (userId : Nat) : List OtpCode :=
  otps.map (fun r => if r.user_id = userId ∧ r.used = false then { r with used := true } else r)

/-- `createOtpCode` in `db.ts`: invalidate all unconsumed codes of the
user, then `INSERT INTO otp_codes (user_id, code, expires_at, created_at)`
(the fresh row has `used = 0` by column default). -/
def createOtpCode (db : Db) (userId : Nat) (code : String) (expiresAt createdAt : Nat) : Db :=
  { db with
    otps := invalidateOtps db.otps userId ++
      [⟨db.nextOtpId, userId, code, expiresAt, false, createdAt⟩],
    nextOtpId := db.nextOtpId + 1 }

/-- Row filter of the SELECT inside `verifyOtpCode`:
`user_id = ? AND code = ? AND used = 0 AND expires_at > ?`. -/
def otpMatches (r : OtpCode) (userId : Nat) (code : String) (now : Nat) : Bool :=
  r.user_id = userId ∧ r.code = code ∧ r.used = false ∧ now < r.expires_at

/-- The SELECT statement of `verifyOtpCode` in `db.ts` (one atomic
sqlite statement returning the first matching row, if any). -/
def otpSelect (db : Db) (userId : Nat) (code : String) (now : Nat) : Option OtpCode :=
  db.otps.find? (fun r => otpMatches r userId code now)

/-- The UPDATE statement of `verifyOtpCode` in `db.ts`:
`UPDATE otp_codes SET used = 1 WHERE id = ?` (one atomic statement). -/
def otpMarkUsed (db : Db) (rowId : Nat) : Db :=
  { db with otps := db.otps.map (fun r => if r.id = rowId then { r with used := true } else r) }

/-- `verifyOtpCode` in `db.ts`, run sequentially: SELECT a matching
unconsumed unexpired row, then (in a separate statement) mark it used.
Returns the boolean the promise resolves with, and the new table state. -/
def verifyOtpCode (db : Db) (userId : Nat) (code : String) (now : Nat) : Bool × Db :=
  match otpSelect db userId code now with
  | none => (false, db)
  | some r => (true, otpMarkUsed db r.id)

/-- Two concurrent executions of `verifyOtpCode` for the same
`(userId, code)` under the interleaving select₁ · select₂ · update₁ ·
update₂.  Each sqlite statement is atomic, but the SELECT/UPDATE pair
of one call is not, so both statements of call 2 may run between the
two statements of call 1.  Returns (result of call 1, result of call 2,
final table state). -/
def verifyOtpCodeInterleaved (db : Db) (userId : Nat) (code : String) (now : Nat) :
    Bool × Bool × Db :=
  let r1 := otpSelect db userId code now
  let r2 := otpSelect db userId code now
  let db1 := match r1 with
    | some r => otpMarkUsed db r.id
    | none => db
  let db2 := match r2 with
    | some r => otpMarkUsed db1 r.id
    | none => db1
  (r1.isSome, r2.isSome, db2)

/-- At most one unconsumed `otp_codes` row for a given user — the
"single active challenge" shape that `createOtpCode` establishes. -/
def atMostOneActive (db : Db) (userId : Nat) : Prop :=
  ∀ r ∈ db.otps, ∀ q ∈ db.otps, r.user_id = userId → q.user_id = userId →
    r.used = false → q.used = false → r = q

/-!
Sessions.  The source uses `express-session` with an in-memory store
(`resave:false`, `saveInitialized:false`, cookie name `sid`) and `csurf`
with `cookie:false`, so the CSRF secret lives inside the session record.
A session record is the mutable bag the handlers write into, modelled
as a typed record; the store maps opaque session identifiers to records.
Identifiers are unguessable random strings in the source; freshness of
newly generated identifiers is modelled by drawing them from a counter
(`nextSid`) that dominates every identifier handed out so far.  The
`csurf` secret/token pair is modelled by the secret value itself: a
presented token is accepted exactly when it was derived from the
session's current secret, so the accept/reject relation is preserved;
fresh secrets are drawn from `nextSecret`. -/
structure Session where
  userId : Option Nat
  lastActivity : Option Nat
  csrfSecret : Option Nat
deriving DecidableEq, Repr

/-- The whole server-side state the auth core touches: the database,
the session store, and the freshness counters. -/
structure ServerState where
  db : Db
  sessions : Nat → Option Session
  nextSid : Nat
  nextSecret : Nat

/-- A session record carrying no fields yet (what `express-session`
creates for a request with no valid cookie, and what `regenerate`
installs under the fresh identifier). -/
def emptySession : Session := ⟨none, none, none⟩

/-- Store (or overwrite) a session record under an identifier. -/
def putSession (st : ServerState) (sid : Nat) (s : Session) : ServerState :=
  { st with sessions := fun t => if t = sid then some s else st.sessions t }

/-- `req.session.destroy`: drop the record from the store. -/
def destroySession (st : ServerState) (sid : Nat) : ServerState :=
  { st with sessions := fun t => if t = sid then none else st.sessions t }

/-- Generate a brand-new session under a fresh identifier. -/
def allocSession (st : ServerState) : Nat × ServerState :=
  (st.nextSid,
   putSession { st with nextSid := st.nextSid + 1 } st.nextSid emptySession)

/-- `req.session.regenerate`: destroy the current record and install an
empty record under a freshly generated identifier (the callback then
writes into the new record). -/
def regenerateSession (st : ServerState) (sid : Nat) : Nat × ServerState :=
  allocSession (destroySession st sid)

/-- The `express-session` middleware resolving the session of an
incoming request: a cookie naming a live identifier yields that
session; otherwise a brand-new empty session is created. -/
def resolveSession (st : ServerState) (sidOpt : Option Nat) : Nat × Session × ServerState :=
  match sidOpt with
  | some sid =>
    match st.sessions sid with
    | some s => (sid, s, st)
    | none => ((allocSession st).1, emptySession, (allocSession st).2)
  | none => ((allocSession st).1, emptySession, (allocSession st).2)

/-- Set `req.session.lastActivity = Date.now()` on a live session. -/
def setLastActivity (st : ServerState) (sid : Nat) (now : Nat) : ServerState :=
  match st.sessions sid with
  | none => st
  | some s => putSession st sid { s with lastActivity := some now }

/-- JSON response bodies produced by the auth core, with the literal
strings of the source, so that "identical response shape" is equality. -/
inductive Body where
  | errorMsg (error : String)
  | pendingOtp (requiresOtp : Bool) (userId : Nat) (message demoOtp : String)
  | userOut (id : Nat) (name email : String) (role : Role)
  | userNull
  | activeOnly (active : Bool)
  | activeReason (active : Bool) (reason : String)
  | csrfTokenBody (token : Nat)
  | messageOtp (message demoOtp : String)
  | noContent
deriving DecidableEq, Repr

/-- An HTTP response: status code plus JSON body. -/
structure Resp where
  status : Nat
  body : Body
deriving DecidableEq, Repr

/-- A `securityLogger` event: level, message, and the `reason` field
when the source logs one. -/
structure LogEntry where
  level : String
  message : String
  reason : Option String
deriving DecidableEq, Repr

/-- External collaborators the routes call but whose internals are out
of scope: bcrypt (hash and compare) and the zod email-format test. -/
structure Env where
  bcryptCompare : String → String → Bool
  bcryptHash : String → String
  emailFormatOk : String → Bool

/-- Result of one route handler: the response, the server state after
the handler, the session identifier the response cookie carries (none
after `clearCookie`), and the security-log events appended. -/
structure RouteOut where
  resp : Resp
  st : ServerState
  sid : Option Nat
  logs : List LogEntry

/-- `AFK_TIMEOUT_MS = 25 * 60 * 1000` in `GET /check-activity`. -/
def AFK_TIMEOUT_MS : Nat := 25 * 60 * 1000

/-- `OTP_TTL_MS`: the `10 * 60 * 1000` offset used at every
`createOtpCode` call site. -/
def OTP_TTL_MS : Nat := 10 * 60 * 1000

/-- JS `String.prototype.toLowerCase` as exercised by the auth routes
(ASCII case folding), written by structural recursion over the
character list so that concrete inputs evaluate. -/
def toLowerStr (s : String) : String := ⟨s.data.map Char.toLower⟩

/-- `POST /register` (`routes/auth.ts`).  `otpDraw` is the value the
`crypto.randomInt` draw inside `generateOtp()` produced for this
request.  Validation follows `registerSchema` (name min 1, email
format, password min 8).  Note the duplicate check runs on the raw
request email while the INSERT stores `email.toLowerCase()`; a failed
INSERT propagates through `next(err)` to the error handler, which
responds 500. -/
def registerRoute (env : Env) (st0 : ServerState) (sidOpt : Option Nat)
    (name email password otpDraw : String) (now : Nat) : RouteOut :=
  let r := resolveSession st0 sidOpt
  let sid := r.1
  let sess := r.2.1
  let st := r.2.2
  if ¬ (1 ≤ name.length ∧ env.emailFormatOk email = true ∧ 8 ≤ password.length) then
    ⟨⟨400, .errorMsg "Invalid payload"⟩, st, some sid, []⟩
  else
    match findUserByEmail st.db email with
    | some _ => ⟨⟨409, .errorMsg "Email already in use"⟩, st, some sid, []⟩
    | none =>
      let passwordHash := env.bcryptHash password
      match createUser st.db name (toLowerStr email) passwordHash Role.user now with
      | .error _ =>
        ⟨⟨500, .errorMsg "Internal server error"⟩, st, some sid,
          [⟨"error", "server_error", none⟩]⟩
      | .ok (user, db) =>
        let st1 : ServerState := { st with db := db }
        if user.role = Role.user then
          let st2 : ServerState :=
            { st1 with db := createOtpCode st1.db user.id otpDraw (now + OTP_TTL_MS) now }
          ⟨⟨201, .pendingOtp true user.id "Please verify OTP to complete registration" otpDraw⟩,
            st2, some sid, [⟨"info", "otp_generated", none⟩]⟩
        else
          let st2 := putSession st1 sid { sess with userId := some user.id }
          let r2 := regenerateSession st2 sid
          let st3 := putSession r2.2 r2.1 { emptySession with userId := some user.id }
          ⟨⟨201, .userOut user.id user.name user.email user.role⟩, st3, some r2.1,
            [⟨"info", "user_register", none⟩]⟩

/-- `POST /login` (`routes/auth.ts`).  Credential failures both answer
401 `Invalid credentials`, logged with distinct reasons; a `user`-role
account gets an OTP challenge and no session write; `admin`/`editor`
get `session.regenerate` and then `userId`/`lastActivity` on the fresh
session. -/
def loginRoute (env : Env) (st0 : ServerState) (sidOpt : Option Nat)
    (email password otpDraw : String) (now : Nat) : RouteOut :=
  let r := resolveSession st0 sidOpt
  let sid := r.1
  let st := r.2.2
  if ¬ (env.emailFormatOk email = true ∧ 1 ≤ password.length) then
    ⟨⟨400, .errorMsg "Invalid payload"⟩, st, some sid, []⟩
  else
    match findUserByEmail st.db (toLowerStr email) with
    | none =>
      ⟨⟨401, .errorMsg "Invalid credentials"⟩, st, some sid,
        [⟨"warn", "login_failed", some "user_not_found"⟩]⟩
    | some user =>
      if env.bcryptCompare password user.password_hash = false then
        ⟨⟨401, .errorMsg "Invalid credentials"⟩, st, some sid,
          [⟨"warn", "login_failed", some "bad_password"⟩]⟩
      else if user.role = Role.user then
        let st1 : ServerState :=
          { st with db := createOtpCode st.db user.id otpDraw (now + OTP_TTL_MS) now }
        ⟨⟨200, .pendingOtp true user.id "Please enter OTP sent to your email" otpDraw⟩,
          st1, some sid, [⟨"info", "otp_generated", none⟩]⟩
      else
        let r2 := regenerateSession st sid
        let st1 := putSession r2.2 r2.1 ⟨some user.id, some now, none⟩
        ⟨⟨200, .userOut user.id user.name user.email user.role⟩, st1, some r2.1,
          [⟨"info", "login_success", none⟩]⟩

/-- `POST /verify-otp` (`routes/auth.ts`).  An unknown `userId` answers
404 `User not found`; a failed code check answers 401
`Invalid or expired OTP`; success regenerates the session and binds the
identity. -/
def verifyOtpRoute (st0 : ServerState) (sidOpt : Option Nat)
    (userId : Nat) (otp : String) (now : Nat) : RouteOut :=
  let r := resolveSession st0 sidOpt
  let sid := r.1
  let st := r.2.2
  if ¬ otp.length = 6 then
    ⟨⟨400, .errorMsg "Invalid payload"⟩, st, some sid, []⟩
  else
    match findUserById st.db userId with
    | none => ⟨⟨404, .errorMsg "User not found"⟩, st, some sid, []⟩
    | some user =>
      let v := verifyOtpCode st.db userId otp now
      let st1 : ServerState := { st with db := v.2 }
      if v.1 = false then
        ⟨⟨401, .errorMsg "Invalid or expired OTP"⟩, st1, some sid,
          [⟨"warn", "otp_failed", some "invalid_or_expired"⟩]⟩
      else
        let r2 := regenerateSession st1 sid
        let st2 := putSession r2.2 r2.1 ⟨some user.id, some now, none⟩
        ⟨⟨200, .userOut user.id user.name user.email user.role⟩, st2, some r2.1,
          [⟨"info", "otp_verified", none⟩]⟩

/-- `POST /resend-otp` (`routes/auth.ts`). -/
def resendOtpRoute (st0 : ServerState) (sidOpt : Option Nat)
    (userId : Nat) (otpDraw : String) (now : Nat) : RouteOut :=
  let r := resolveSession st0 sidOpt
  let sid := r.1
  let st := r.2.2
  match findUserById st.db userId with
  | none => ⟨⟨404, .errorMsg "User not found"⟩, st, some sid, []⟩
  | some user =>
    if ¬ user.role = Role.user then
      ⟨⟨400, .errorMsg "OTP not required for this user"⟩, st, some sid, []⟩
    else
      let st1 : ServerState :=
        { st with db := createOtpCode st.db user.id otpDraw (now + OTP_TTL_MS) now }
      ⟨⟨200, .messageOtp "New OTP sent" otpDraw⟩, st1, some sid,
        [⟨"info", "otp_resent", none⟩]⟩

/-- `POST /logout` (`routes/auth.ts`): destroy the session, clear the
`sid` cookie, answer 204. -/
def logoutRoute (st0 : ServerState) (sidOpt : Option Nat) : RouteOut :=
  let r := resolveSession st0 sidOpt
  let st1 := destroySession r.2.2 r.1
  ⟨⟨204, .noContent⟩, st1, none, [⟨"info", "logout", none⟩]⟩

/-- `GET /me` (`routes/auth.ts`): anonymous sessions answer
`{user: null}`; otherwise `lastActivity` is refreshed before the user
lookup, and a dangling `userId` also answers `{user: null}`. -/
def meRoute (st0 : ServerState) (sidOpt : Option Nat) (now : Nat) : RouteOut :=
  let r := resolveSession st0 sidOpt
  let sid := r.1
  let st := r.2.2
  match r.2.1.userId with
  | none => ⟨⟨200, .userNull⟩, st, some sid, []⟩
  | some uid =>
    let st1 := setLastActivity st sid now
    match findUserById st1.db uid with
    | none => ⟨⟨200, .userNull⟩, st1, some sid, []⟩
    | some u => ⟨⟨200, .userOut u.id u.name u.email u.role⟩, st1, some sid, []⟩

/-- `POST /heartbeat` (`routes/auth.ts`): touch `lastActivity` when a
`userId` is bound, else 401. -/
def heartbeatRoute (st0 : ServerState) (sidOpt : Option Nat) (now : Nat) : RouteOut :=
  let r := resolveSession st0 sidOpt
  let sid := r.1
  let st := r.2.2
  match r.2.1.userId with
  | some _ => ⟨⟨200, .activeOnly true⟩, setLastActivity st sid now, some sid, []⟩
  | none => ⟨⟨401, .activeOnly false⟩, st, some sid, []⟩

/-- The idle test of `GET /check-activity`:
`lastActivity && (now - lastActivity) > AFK_TIMEOUT_MS` (JS truthiness:
an absent or zero `lastActivity` never trips the guard; JS subtraction
can be negative, which Nat truncation maps to 0 — both fail the strict
comparison, so the guards agree). -/
def afkGuard (la : Option Nat) (now : Nat) : Bool :=
  match la with
  | none => false
  | some l => decide (l ≠ 0 ∧ AFK_TIMEOUT_MS < now - l)

/-- `GET /check-activity` (`routes/auth.ts`): no `userId` answers
`{active:false, reason:'not_logged_in'}`; an idle-expired session is
destroyed server-side and answers `{active:false, reason:'afk_timeout'}`
with the cookie cleared; otherwise `{active:true}`. -/
def checkActivityRoute (st0 : ServerState) (sidOpt : Option Nat) (now : Nat) : RouteOut :=
  let r := resolveSession st0 sidOpt
  let sid := r.1
  let st := r.2.2
  match r.2.1.userId with
  | none => ⟨⟨200, .activeReason false "not_logged_in"⟩, st, some sid, []⟩
  | some _ =>
    if afkGuard r.2.1.lastActivity now then
      ⟨⟨200, .activeReason false "afk_timeout"⟩, destroySession st sid, none, []⟩
    else
      ⟨⟨200, .activeOnly true⟩, st, some sid, []⟩

/-- The `req.user` projection `requireAuth` installs
(`middleware/auth.ts`). -/
structure AuthedUser where
  id : Nat
  role : Role
  name : String
  email : String
deriving DecidableEq, Repr

/-- `requireAuth` (`middleware/auth.ts`): deny 401
`Not authenticated` without a bound `userId` (reason `no_session`);
deny 401 `User not found` when the bound id no longer resolves
(reason `user_not_found`); otherwise attach the user and continue.
Note: no check of `lastActivity` or any idle timer occurs here. -/
def requireAuth (st0 : ServerState) (sidOpt : Option Nat) :
    Except (Resp × LogEntry) AuthedUser × Nat × ServerState :=
  let r := resolveSession st0 sidOpt
  let sid := r.1
  let st := r.2.2
  match r.2.1.userId with
  | none =>
    (.error (⟨401, .errorMsg "Not authenticated"⟩,
      ⟨"warn", "unauthorized_access_attempt", some "no_session"⟩), sid, st)
  | some uid =>
    match findUserById st.db uid with
    | none =>
      (.error (⟨401, .errorMsg "User not found"⟩,
        ⟨"warn", "unauthorized_access_attempt", some "user_not_found"⟩), sid, st)
    | some u => (.ok ⟨u.id, u.role, u.name, u.email⟩, sid, st)

/-- `requireRole(roles)` (`middleware/auth.ts`) applied after
`requireAuth` has attached `req.user`: allow exactly when the literal
role is in the list, else 403 `Forbidden`. -/
def requireRole (roles : List Role) (u : AuthedUser) : Option (Resp × LogEntry) :=
  if roles.contains u.role then none
  else
    some (⟨403, .errorMsg "Forbidden"⟩,
      ⟨"warn", "forbidden_access_attempt", some "insufficient_role"⟩)

/-- The `csurf` (`cookie:false`) secret step: reuse the secret stored in
the session, or generate a fresh one into the session.  A token is
identified with the secret it was derived from (`csurf` accepts a token
exactly when it was derived from the session's current secret). -/
def csrfIssue (st : ServerState) (sid : Nat) (s : Session) : Nat × ServerState :=
  match s.csrfSecret with
  | some k => (k, st)
  | none =>
    (st.nextSecret,
     putSession { st with nextSecret := st.nextSecret + 1 } sid
       { s with csrfSecret := some st.nextSecret })

/-- `GET /api/csrf-token` (`setup/app.ts`): run the csurf secret step on
the request's session and return the derived token. -/
def csrfTokenRoute (st0 : ServerState) (sidOpt : Option Nat) : RouteOut :=
  let r := resolveSession st0 sidOpt
  let p := csrfIssue r.2.2 r.1 r.2.1
  ⟨⟨200, .csrfTokenBody p.1⟩, p.2, some r.1, []⟩

/-- The `csrfProtection` middleware on a state-changing request
(`setup/app.ts` mounts it before every `/api/auth`, `/api/admin`,
`/api/files`, `/api/posts` route): the presented token is accepted
exactly when it matches the session's current secret (generated fresh
if the session has none yet). -/
def csrfCheck (st0 : ServerState) (sidOpt : Option Nat) (token : Option Nat) :
    Bool × Nat × ServerState :=
  let r := resolveSession st0 sidOpt
  let p := csrfIssue r.2.2 r.1 r.2.1
  (decide (token = some p.1), r.1, p.2)

/-- One request against the auth core, with all its inputs (the cookie
sid it carries, its body fields, the time it arrives, the RNG draw). -/
inductive Op where
  | opRegister (name email password otpDraw : String) (now : Nat) (sid : Option Nat)
  | opLogin (email password otpDraw : String) (now : Nat) (sid : Option Nat)
  | opVerifyOtp (userId : Nat) (otp : String) (now : Nat) (sid : Option Nat)
  | opResendOtp (userId : Nat) (otpDraw : String) (now : Nat) (sid : Option Nat)
  | opLogout (sid : Option Nat)
  | opMe (now : Nat) (sid : Option Nat)
  | opHeartbeat (now : Nat) (sid : Option Nat)
  | opCheckActivity (now : Nat) (sid : Option Nat)
  | opCsrfToken (sid : Option Nat)
  | opCsrfCheck (sid : Option Nat) (token : Option Nat)

/-- Server-state effect of one request. -/
def applyOp (env : Env) (st : ServerState) : Op → ServerState
  | .opRegister n e p o now sid => (registerRoute env st sid n e p o now).st
  | .opLogin e p o now sid => (loginRoute env st sid e p o now).st
  | .opVerifyOtp u otp now sid => (verifyOtpRoute st sid u otp now).st
  | .opResendOtp u o now sid => (resendOtpRoute st sid u o now).st
  | .opLogout sid => (logoutRoute st sid).st
  | .opMe now sid => (meRoute st sid now).st
  | .opHeartbeat now sid => (heartbeatRoute st sid now).st
  | .opCheckActivity now sid => (checkActivityRoute st sid now).st
  | .opCsrfToken sid => (csrfTokenRoute st sid).st
  | .opCsrfCheck sid token => (csrfCheck st sid token).2.2

/-- Server-state effect of a whole sequence of requests. -/
def runOps (env : Env) (st : ServerState) : List Op → ServerState
  | [] => st
  | op :: ops => runOps env (applyOp env st op) ops

/-- A dead session identifier: strictly below the freshness counter
(so it can never be generated again) and absent from the store. -/
def deadSid (st : ServerState) (s : Nat) : Prop :=
  s < st.nextSid ∧ st.sessions s = none

theorem deadSid_db (st : ServerState) (db' : Db) (s : Nat) (h : deadSid st s) :
    deadSid { st with db := db' } s := h

theorem deadSid_put (st : ServerState) (sid : Nat) (sess : Session) (s : Nat)
    (hne : sid ≠ s) (h : deadSid st s) : deadSid (putSession st sid sess) s := by
  refine ⟨h.1, ?_⟩
  show (if s = sid then some sess else st.sessions s) = none
  rw [if_neg (fun he => hne he.symm), h.2]

theorem deadSid_destroy (st : ServerState) (sid : Nat) (s : Nat)
    (h : deadSid st s) : deadSid (destroySession st sid) s := by
  refine ⟨h.1, ?_⟩
  show (if s = sid then none else st.sessions s) = none
  split
  · rfl
  · exact h.2

theorem deadSid_alloc (st : ServerState) (s : Nat) (h : deadSid st s) :
    (allocSession st).1 ≠ s ∧ deadSid (allocSession st).2 s := by
  obtain ⟨hlt, hnone⟩ := h
  have hne : st.nextSid ≠ s := by omega
  refine ⟨hne, Nat.lt_succ_of_lt hlt, ?_⟩
  show (if s = st.nextSid then some emptySession else st.sessions s) = none
  rw [if_neg (fun he => hne he.symm), hnone]

theorem deadSid_regen (st : ServerState) (sid : Nat) (s : Nat) (h : deadSid st s) :
    (regenerateSession st sid).1 ≠ s ∧ deadSid (regenerateSession st sid).2 s :=
  deadSid_alloc _ s (deadSid_destroy st sid s h)

theorem deadSid_resolve (st : ServerState) (sidOpt : Option Nat) (s : Nat)
    (h : deadSid st s) :
    (resolveSession st sidOpt).1 ≠ s ∧ deadSid (resolveSession st sidOpt).2.2 s := by
  match sidOpt with
  | none => exact deadSid_alloc st s h
  | some sid =>
    cases hs : st.sessions sid with
    | none => simpa only [resolveSession, hs] using deadSid_alloc st s h
    | some sess =>
      simp only [resolveSession, hs]
      refine ⟨fun he => ?_, h⟩
      rw [he, h.2] at hs
      cases hs

theorem deadSid_touch (st : ServerState) (sid : Nat) (now : Nat) (s : Nat)
    (h : deadSid st s) : deadSid (setLastActivity st sid now) s := by
  unfold setLastActivity
  cases hs : st.sessions sid with
  | none => exact h
  | some sess =>
    refine deadSid_put st sid _ s (fun he => ?_) h
    rw [he, h.2] at hs
    cases hs

theorem deadSid_secret (st : ServerState) (k : Nat) (s : Nat) (h : deadSid st s) :
    deadSid { st with nextSecret := k } s := h

theorem deadSid_csrfIssue (st : ServerState) (sid : Nat) (sess : Session) (s : Nat)
    (hne : sid ≠ s) (h : deadSid st s) : deadSid (csrfIssue st sid sess).2 s := by
  unfold csrfIssue
  cases sess.csrfSecret with
  | some k => exact h
  | none => exact deadSid_put _ sid _ s hne h

theorem deadSid_registerRoute (env : Env) (st0 : ServerState) (sidOpt : Option Nat)
    (name email password otpDraw : String) (now : Nat) (s : Nat) (h : deadSid st0 s) :
    deadSid (registerRoute env st0 sidOpt name email password otpDraw now).st s := by
  obtain ⟨hne, hd⟩ := deadSid_resolve st0 sidOpt s h
  simp only [registerRoute]
  split
  · exact hd
  · split
    · exact hd
    · split
      · exact hd
      · split
        · exact deadSid_db _ _ _ (deadSid_db _ _ _ hd)
        · refine deadSid_put _ _ _ _ ?_ ?_
          · exact (deadSid_regen _ _ s (deadSid_put _ _ _ _ hne (deadSid_db _ _ _ hd))).1
          · exact (deadSid_regen _ _ s (deadSid_put _ _ _ _ hne (deadSid_db _ _ _ hd))).2

theorem deadSid_loginRoute (env : Env) (st0 : ServerState) (sidOpt : Option Nat)
    (email password otpDraw : String) (now : Nat) (s : Nat) (h : deadSid st0 s) :
    deadSid (loginRoute env st0 sidOpt email password otpDraw now).st s := by
  obtain ⟨hne, hd⟩ := deadSid_resolve st0 sidOpt s h
  simp only [loginRoute]
  split
  · exact hd
  · split
    · exact hd
    · split
      · exact hd
      · split
        · exact deadSid_db _ _ _ hd
        · obtain ⟨hne2, hd2⟩ := deadSid_regen _ _ s hd
          exact deadSid_put _ _ _ _ hne2 hd2

theorem deadSid_verifyOtpRoute (st0 : ServerState) (sidOpt : Option Nat)
    (userId : Nat) (otp : String) (now : Nat) (s : Nat) (h : deadSid st0 s) :
    deadSid (verifyOtpRoute st0 sidOpt userId otp now).st s := by
  obtain ⟨hne, hd⟩ := deadSid_resolve st0 sidOpt s h
  simp only [verifyOtpRoute]
  split
  · exact hd
  · split
    · exact hd
    · split
      · exact deadSid_db _ _ _ hd
      · obtain ⟨hne2, hd2⟩ := deadSid_regen _ _ s (deadSid_db _ _ _ hd)
        exact deadSid_put _ _ _ _ hne2 hd2

theorem deadSid_resendOtpRoute (st0 : ServerState) (sidOpt : Option Nat)
    (userId : Nat) (otpDraw : String) (now : Nat) (s : Nat) (h : deadSid st0 s) :
    deadSid (resendOtpRoute st0 sidOpt userId otpDraw now).st s := by
  obtain ⟨hne, hd⟩ := deadSid_resolve st0 sidOpt s h
  simp only [resendOtpRoute]
  split
  · exact hd
  · split
    · exact hd
    · exact deadSid_db _ _ _ hd

theorem deadSid_logoutRoute (st0 : ServerState) (sidOpt : Option Nat) (s : Nat)
    (h : deadSid st0 s) : deadSid (logoutRoute st0 sidOpt).st s := by
  obtain ⟨hne, hd⟩ := deadSid_resolve st0 sidOpt s h
  exact deadSid_destroy _ _ s hd

theorem deadSid_meRoute (st0 : ServerState) (sidOpt : Option Nat) (now : Nat) (s : Nat)
    (h : deadSid st0 s) : deadSid (meRoute st0 sidOpt now).st s := by
  obtain ⟨hne, hd⟩ := deadSid_resolve st0 sidOpt s h
  simp only [meRoute]
  split
  · exact hd
  · split
    · exact deadSid_touch _ _ _ s hd
    · exact deadSid_touch _ _ _ s hd

theorem deadSid_heartbeatRoute (st0 : ServerState) (sidOpt : Option Nat) (now : Nat)
    (s : Nat) (h : deadSid st0 s) : deadSid (heartbeatRoute st0 sidOpt now).st s := by
  obtain ⟨hne, hd⟩ := deadSid_resolve st0 sidOpt s h
  simp only [heartbeatRoute]
  split
  · exact deadSid_touch _ _ _ s hd
  · exact hd

theorem deadSid_checkActivityRoute (st0 : ServerState) (sidOpt : Option Nat) (now : Nat)
    (s : Nat) (h : deadSid st0 s) : deadSid (checkActivityRoute st0 sidOpt now).st s := by
  obtain ⟨hne, hd⟩ := deadSid_resolve st0 sidOpt s h
  simp only [checkActivityRoute]
  split
  · exact hd
  · split
    · exact deadSid_destroy _ _ s hd
    · exact hd

theorem deadSid_csrfTokenRoute (st0 : ServerState) (sidOpt : Option Nat) (s : Nat)
    (h : deadSid st0 s) : deadSid (csrfTokenRoute st0 sidOpt).st s := by
  obtain ⟨hne, hd⟩ := deadSid_resolve st0 sidOpt s h
  exact deadSid_csrfIssue _ _ _ s hne hd

theorem deadSid_csrfCheck (st0 : ServerState) (sidOpt : Option Nat) (token : Option Nat)
    (s : Nat) (h : deadSid st0 s) : deadSid (csrfCheck st0 sidOpt token).2.2 s := by
  obtain ⟨hne, hd⟩ := deadSid_resolve st0 sidOpt s h
  exact deadSid_csrfIssue _ _ _ s hne hd

/-- A dead session identifier stays dead across any single request. -/
theorem deadSid_applyOp (env : Env) (st : ServerState) (op : Op) (s : Nat)
    (h : deadSid st s) : deadSid (applyOp env st op) s := by
  cases op with
  | opRegister n e p o now sid => exact deadSid_registerRoute env st sid n e p o now s h
  | opLogin e p o now sid => exact deadSid_loginRoute env st sid e p o now s h
  | opVerifyOtp u otp now sid => exact deadSid_verifyOtpRoute st sid u otp now s h
  | opResendOtp u o now sid => exact deadSid_resendOtpRoute st sid u o now s h
  | opLogout sid => exact deadSid_logoutRoute st sid s h
  | opMe now sid => exact deadSid_meRoute st sid now s h
  | opHeartbeat now sid => exact deadSid_heartbeatRoute st sid now s h
  | opCheckActivity now sid => exact deadSid_checkActivityRoute st sid now s h
  | opCsrfToken sid => exact deadSid_csrfTokenRoute st sid s h
  | opCsrfCheck sid token => exact deadSid_csrfCheck st sid token s h

/-- A dead session identifier stays dead across any request sequence. -/
theorem deadSid_runOps (env : Env) (st : ServerState) (ops : List Op) (s : Nat)
    (h : deadSid st s) : deadSid (runOps env st ops) s := by
  induction ops generalizing st with
  | nil => exact h
  | cons op ops ih => exact ih _ (deadSid_applyOp env st op s h)

/-- The identity a session identifier is currently authenticated as,
if any (`(req.session as any).userId` for a live session). -/
def authedUser (st : ServerState) (sid : Nat) : Option Nat :=
  (st.sessions sid).bind Session.userId

/-- All live session identifiers lie below the freshness counter (true
of every state the server can reach, since identifiers are only ever
drawn fresh). -/
def SidInv (st : ServerState) : Prop :=
  ∀ t, st.nextSid ≤ t → st.sessions t = none

/-!  Concrete fixtures used by counterexamples and witnesses (shaped
after the auto-seeded accounts in `server.ts`). -/

/-- An environment whose bcrypt hash is the identity (so `compare` is
string equality) and which accepts every email format. -/
def exEnv : Env := ⟨fun p h => decide (p = h), fun p => p, fun _ => true⟩

def exUser : DbUser := ⟨1, "Regular User", "user@example.com", "User123!", Role.user, 0⟩

def exAdmin : DbUser := ⟨2, "Admin User", "admin@example.com", "Admin123!", Role.admin, 0⟩

/-- A database with a seeded regular user and admin, and one active OTP
challenge (code `111111`, expiring at `600000`) for the regular user. -/
def exDb : Db := ⟨[exUser, exAdmin], [⟨1, 1, "111111", 600000, false, 0⟩], 3, 2⟩

/-- Server state with `exDb` and an empty session store. -/
def exState : ServerState := ⟨exDb, fun _ => none, 0, 0⟩

/-- Server state with one authenticated session (identifier 0, bound to
the regular user, last activity at instant 1). -/
def exStateAuth : ServerState :=
  ⟨exDb, fun t => if t = 0 then some ⟨some 1, some 1, none⟩ else none, 1, 0⟩

/-- Helper: the appended row is the only unconsumed challenge its user
has after `createOtpCode`. -/
theorem createOtpCode_active_eq (db : Db) (userId : Nat) (code : String)
    (exp cAt : Nat) (r : OtpCode)
    (hr : r ∈ (createOtpCode db userId code exp cAt).otps)
    (hrid : r.user_id = userId) (hru : r.used = false) :
    r = ⟨db.nextOtpId, userId, code, exp, false, cAt⟩ := by
  simp only [createOtpCode, List.mem_append, List.mem_singleton] at hr
  rcases hr with hr | hr
  · exfalso
    simp only [invalidateOtps, List.mem_map] at hr
    obtain ⟨q, hq, hfq⟩ := hr
    by_cases hc : q.user_id = userId ∧ q.used = false
    · rw [if_pos hc] at hfq
      rw [← hfq] at hru
      exact Bool.true_eq_false.mp hru
    · rw [if_neg hc] at hfq
      rw [← hfq] at hrid hru
      exact hc ⟨hrid, hru⟩
  · exact hr

/-- Helper: `createOtpCode` leaves at most one unconsumed challenge for
the user it serves. -/
theorem createOtpCode_atMostOneActive (db : Db) (userId : Nat) (code : String)
    (exp cAt : Nat) : atMostOneActive (createOtpCode db userId code exp cAt) userId := by
  intro r hr q hq hrid hqid hru hqu
  rw [createOtpCode_active_eq db userId code exp cAt r hr hrid hru,
    createOtpCode_active_eq db userId code exp cAt q hq hqid hqu]

/-- **C2** (counterexample).  Two concurrent `verifyOtpCode` calls with
the same valid code, interleaved select₁ · select₂ · update₁ · update₂,
both return success on a store holding one active challenge — refuting
"exactly one returns success and the other returns failure". -/
theorem C2_counterexample :
    (verifyOtpCodeInterleaved exDb 1 "111111" 0).1 = true ∧
    (verifyOtpCodeInterleaved exDb 1 "111111" 0).2.1 = true := by decide

/-- **C2** (amended).  `verifyOtpCode` is a non-atomic check-then-set
(a SELECT statement followed by a separate UPDATE statement): run
sequentially from a store with at most one active challenge per user, a
successful verification consumes the challenge, so an immediate retry
with the same code fails; but two concurrent verify calls interleaved
select₁ · select₂ · update₁ · update₂ both return success. -/
theorem verifyOtpCode_check_then_set
    (db : Db) (userId : Nat) (code : String) (now : Nat)
    (hone : atMostOneActive db userId)
    (hsel : (otpSelect db userId code now).isSome = true) :
    (verifyOtpCode db userId code now).1 = true ∧
    (verifyOtpCode (verifyOtpCode db userId code now).2 userId code now).1 = false ∧
    (verifyOtpCodeInterleaved db userId code now).1 = true ∧
    (verifyOtpCodeInterleaved db userId code now).2.1 = true := by
  obtain ⟨r, hr⟩ := Option.isSome_iff_exists.mp hsel
  have hrfind : db.otps.find? (fun x => otpMatches x userId code now) = some r := hr
  have hrmem : r ∈ db.otps := List.mem_of_find?_eq_some hrfind
  have hrmatch := List.find?_some hrfind
  simp only [otpMatches, decide_eq_true_eq] at hrmatch
  obtain ⟨hrid, hrcode, hruse, hrexp⟩ := hrmatch
  have hnone : otpSelect (otpMarkUsed db r.id) userId code now = none := by
    rw [otpSelect, List.find?_eq_none]
    intro x hx
    simp only [otpMarkUsed, List.mem_map] at hx
    obtain ⟨q, hq, hfq⟩ := hx
    intro hxm
    simp only [otpMatches, decide_eq_true_eq] at hxm
    obtain ⟨hxid, hxcode, hxuse, hxexp⟩ := hxm
    by_cases hc : q.id = r.id
    · rw [if_pos hc] at hfq
      rw [← hfq] at hxuse
      exact Bool.true_eq_false.mp hxuse
    · rw [if_neg hc] at hfq
      subst hfq
      exact hc (congrArg OtpCode.id (hone q hq r hrmem hxid hrid hxuse hruse))
  refine ⟨?_, ?_, ?_, ?_⟩
  · simp [verifyOtpCode, hr]
  · simp [verifyOtpCode, hr, hnone]
  · simp [verifyOtpCodeInterleaved, hr]
  · simp [verifyOtpCodeInterleaved, hr]

/-- **C2** (witness): the amended statement at the seeded store. -/
theorem verifyOtpCode_check_then_set_witness :
    (verifyOtpCode exDb 1 "111111" 0).1 = true ∧
    (verifyOtpCode (verifyOtpCode exDb 1 "111111" 0).2 1 "111111" 0).1 = false ∧
    (verifyOtpCodeInterleaved exDb 1 "111111" 0).1 = true ∧
    (verifyOtpCodeInterleaved exDb 1 "111111" 0).2.1 = true :=
  verifyOtpCode_check_then_set exDb 1 "111111" 0
    (by unfold atMostOneActive; decide) (by decide)

/-- A seeded database with one user and no challenges yet. -/
def exDbC5 : Db := ⟨[exUser], [], 2, 1⟩

/-- **C5** (counterexample).  When the fresh `crypto.randomInt` draw
collides with the previous one, a code issued before the most recent
issuance verifies successfully afterwards (it matches the new
challenge) — refuting "always returns failure". -/
theorem C5_counterexample :
    (verifyOtpCode
      (createOtpCode (createOtpCode exDbC5 1 "123456" OTP_TTL_MS 0) 1 "123456"
        (OTP_TTL_MS + 5) 5)
      1 "123456" 10).1 = true := by decide

/-- **C5** (amended).  Issuing a new OTP challenge marks every
previously unconsumed challenge of that identity consumed (after the
issuance the only unconsumed challenge code for the identity is the new
code), so a verify call with a previously issued code fails whenever
that code differs from the newly drawn one. -/
theorem createOtpCode_invalidates_prior
    (db : Db) (userId : Nat) (newCode oldCode : String) (exp cAt now : Nat)
    (hne : oldCode ≠ newCode) :
    (∀ r ∈ (createOtpCode db userId newCode exp cAt).otps,
        r.user_id = userId → r.used = false → r.code = newCode) ∧
    (verifyOtpCode (createOtpCode db userId newCode exp cAt) userId oldCode now).1 = false := by
  have hactive : ∀ r ∈ (createOtpCode db userId newCode exp cAt).otps,
      r.user_id = userId → r.used = false → r.code = newCode := by
    intro r hr hrid hru
    rw [createOtpCode_active_eq db userId newCode exp cAt r hr hrid hru]
  refine ⟨hactive, ?_⟩
  have hnone : otpSelect (createOtpCode db userId newCode exp cAt) userId oldCode now = none := by
    rw [otpSelect, List.find?_eq_none]
    intro x hx hxm
    simp only [otpMatches, decide_eq_true_eq] at hxm
    obtain ⟨hxid, hxcode, hxuse, hxexp⟩ := hxm
    exact hne (hxcode ▸ hactive x hx hxid hxuse)
  simp [verifyOtpCode, hnone]

/-- **C5** (witness): the amended statement at the seeded store. -/
theorem createOtpCode_invalidates_prior_witness :
    (∀ r ∈ (createOtpCode exDbC5 1 "222222" OTP_TTL_MS 0).otps,
        r.user_id = 1 → r.used = false → r.code = "222222") ∧
    (verifyOtpCode (createOtpCode exDbC5 1 "222222" OTP_TTL_MS 0) 1 "111111" 5).1 = false :=
  createOtpCode_invalidates_prior exDbC5 1 "222222" "111111" OTP_TTL_MS 0 5 (by decide)

theorem putSession_db (st : ServerState) (sid : Nat) (s : Session) :
    (putSession st sid s).db = st.db := rfl

theorem destroySession_db (st : ServerState) (sid : Nat) :
    (destroySession st sid).db = st.db := rfl

theorem regenerateSession_db (st : ServerState) (sid : Nat) :
    (regenerateSession st sid).2.db = st.db := rfl

/-- Resolving a request's session never touches the database. -/
theorem resolveSession_db (st : ServerState) (o : Option Nat) :
    (resolveSession st o).2.2.db = st.db := by
  match o with
  | none => rfl
  | some sid =>
    cases hs : st.sessions sid with
    | none =>
      simp only [resolveSession, hs]
      rfl
    | some s => simp only [resolveSession, hs]

/-- Resolving a request that carries a live session identifier returns
that session and leaves the state untouched. -/
theorem resolveSession_live (st : ServerState) (sid : Nat) (sess : Session)
    (hs : st.sessions sid = some sess) : resolveSession st (some sid) = (sid, sess, st) := by
  simp [resolveSession, hs]

/-- **C3** (counterexample).  A verify request for a nonexistent
identity answers 404 `User not found` while a failing request for an
existing identity answers 401 `Invalid or expired OTP`: the two failure
responses differ, revealing whether the identity exists. -/
theorem C3_counterexample :
    (verifyOtpRoute exState none 5 "222222" 0).resp = ⟨404, Body.errorMsg "User not found"⟩ ∧
    (verifyOtpRoute exState none 1 "222222" 0).resp =
      ⟨401, Body.errorMsg "Invalid or expired OTP"⟩ ∧
    (verifyOtpRoute exState none 5 "222222" 0).resp ≠
      (verifyOtpRoute exState none 1 "222222" 0).resp := by decide

/-- **C3** (amended).  Among well-formed failing verify requests whose
identity exists, the response is the constant 401
`Invalid or expired OTP` (so any two such failures are identical and do
not reveal whether the code mismatched, expired, or was consumed); a
nonexistent identity instead receives 404 `User not found`, so the
response does reveal whether the identity exists. -/
theorem verifyOtp_uniform_for_existing_identity
    (st : ServerState) (sidOpt : Option Nat) (userId : Nat) (otp : String) (now : Nat)
    (hlen : otp.length = 6)
    (huser : (findUserById st.db userId).isSome = true)
    (hfail : (verifyOtpRoute st sidOpt userId otp now).resp.status ≠ 200) :
    (verifyOtpRoute st sidOpt userId otp now).resp =
      ⟨401, Body.errorMsg "Invalid or expired OTP"⟩ := by
  obtain ⟨u, hu⟩ := Option.isSome_iff_exists.mp huser
  have hu' : findUserById (resolveSession st sidOpt).2.2.db userId = some u := by
    rw [resolveSession_db]
    exact hu
  cases hv : (verifyOtpCode (resolveSession st sidOpt).2.2.db userId otp now).1 with
  | false => simp [verifyOtpRoute, hu', hlen, hv]
  | true =>
    exfalso
    apply hfail
    simp [verifyOtpRoute, hu', hlen, hv]

/-- **C3** (witness): the amended statement at the seeded store (an
existing identity, a mismatching code). -/
theorem verifyOtp_uniform_for_existing_identity_witness :
    (verifyOtpRoute exState none 1 "222222" 0).resp =
      ⟨401, Body.errorMsg "Invalid or expired OTP"⟩ :=
  verifyOtp_uniform_for_existing_identity exState none 1 "222222" 0
    (by decide) (by decide) (by decide)

/-- **C7**.  A register request whose email matches an existing
identity only up to letter case slips past the duplicate check (which
uses the raw request email), and the INSERT of the lowercased email
then violates the UNIQUE constraint: the route answers 500
`Internal server error`, not 409 Conflict.  No identity is created.
An exact (byte-equal) duplicate does answer 409. -/
theorem C7_failing_input_eval :
    (registerRoute exEnv exState none "Mallory" "User@example.com" "Password1" "123456" 0).resp
      = ⟨500, Body.errorMsg "Internal server error"⟩ ∧
    (registerRoute exEnv exState none "Mallory" "User@example.com" "Password1" "123456" 0).st.db.users
      = exDb.users ∧
    (registerRoute exEnv exState none "Mallory" "user@example.com" "Password1" "123456" 0).resp
      = ⟨409, Body.errorMsg "Email already in use"⟩ ∧
    (registerRoute exEnv exState none "Mallory" "user@example.com" "Password1" "123456" 0).st.db.users
      = exDb.users := by decide

/-- Server state with one session whose bound identity (99) has no user
record. -/
def exStateDangling : ServerState :=
  ⟨exDb, fun t => if t = 0 then some ⟨some 99, some 1, none⟩ else none, 1, 0⟩

/-- **C9** (counterexample).  Two authentication denials with different
response bodies: a sessionless request gets 401 `Not authenticated`,
while a session whose bound identity no longer resolves gets 401
`User not found` — the denial reveals its cause in the response body,
not only in the logs. -/
theorem C9_counterexample :
    (requireAuth exState none).1 =
      Except.error (⟨401, Body.errorMsg "Not authenticated"⟩,
        ⟨"warn", "unauthorized_access_attempt", some "no_session"⟩) ∧
    (requireAuth exStateDangling (some 0)).1 =
      Except.error (⟨401, Body.errorMsg "User not found"⟩,
        ⟨"warn", "unauthorized_access_attempt", some "user_not_found"⟩) ∧
    (⟨401, Body.errorMsg "User not found"⟩ : Resp) ≠
      ⟨401, Body.errorMsg "Not authenticated"⟩ :=
  ⟨rfl, rfl, by decide⟩

/-- **C9** (amended).  Login failures are uniform: an unknown email and
a known email with a wrong password produce the identical 401
`Invalid credentials` response, while the distinct causes
(`user_not_found` / `bad_password`) are recorded only in the internal
security log.  (The `requireAuth` denial for a dangling identity is not
uniform — see the counterexample.) -/
theorem login_failure_uniformity
    (env : Env) (st : ServerState) (sidOpt : Option Nat)
    (email1 password1 otp1 email2 password2 otp2 : String) (now1 now2 : Nat) (u : DbUser)
    (hv1 : env.emailFormatOk email1 = true) (hp1 : 1 ≤ password1.length)
    (hv2 : env.emailFormatOk email2 = true) (hp2 : 1 ≤ password2.length)
    (h1 : findUserByEmail st.db (toLowerStr email1) = none)
    (h2 : findUserByEmail st.db (toLowerStr email2) = some u)
    (hbc : env.bcryptCompare password2 u.password_hash = false) :
    (loginRoute env st sidOpt email1 password1 otp1 now1).resp =
      (loginRoute env st sidOpt email2 password2 otp2 now2).resp ∧
    (loginRoute env st sidOpt email1 password1 otp1 now1).resp =
      ⟨401, Body.errorMsg "Invalid credentials"⟩ ∧
    (loginRoute env st sidOpt email1 password1 otp1 now1).logs =
      [⟨"warn", "login_failed", some "user_not_found"⟩] ∧
    (loginRoute env st sidOpt email2 password2 otp2 now2).logs =
      [⟨"warn", "login_failed", some "bad_password"⟩] := by
  have h1' : findUserByEmail (resolveSession st sidOpt).2.2.db (toLowerStr email1) = none := by
    rw [resolveSession_db]
    exact h1
  have h2' : findUserByEmail (resolveSession st sidOpt).2.2.db (toLowerStr email2) = some u := by
    rw [resolveSession_db]
    exact h2
  refine ⟨?_, ?_, ?_, ?_⟩ <;> simp [loginRoute, h1', h2', hv1, hp1, hv2, hp2, hbc]

/-- **C9** (witness): the amended statement at the seeded store. -/
theorem login_failure_uniformity_witness :
    (loginRoute exEnv exState none "ghost@example.com" "whatever1" "999999" 0).resp =
      (loginRoute exEnv exState none "user@example.com" "WrongPass" "999999" 0).resp ∧
    (loginRoute exEnv exState none "ghost@example.com" "whatever1" "999999" 0).resp =
      ⟨401, Body.errorMsg "Invalid credentials"⟩ ∧
    (loginRoute exEnv exState none "ghost@example.com" "whatever1" "999999" 0).logs =
      [⟨"warn", "login_failed", some "user_not_found"⟩] ∧
    (loginRoute exEnv exState none "user@example.com" "WrongPass" "999999" 0).logs =
      [⟨"warn", "login_failed", some "bad_password"⟩] :=
  login_failure_uniformity exEnv exState none "ghost@example.com" "whatever1" "999999"
    "user@example.com" "WrongPass" "999999" 0 0 exUser
    (by decide) (by decide) (by decide) (by decide) (by decide) (by decide) (by decide)

/-- Inversion of a successful `createUser`: the created row carries the
requested role, is appended to the users table, and the OTP table is
untouched. -/
theorem createUser_ok (db : Db) (name email ph : String) (role : Role) (cAt : Nat)
    (u : DbUser) (db' : Db)
    (h : createUser db name email ph role cAt = .ok (u, db')) :
    u.role = role ∧ db'.users = db.users ++ [u] ∧ db'.otps = db.otps := by
  rw [createUser] at h
  split at h
  · cases h
  · injection h with h2
    rw [Prod.mk.injEq] at h2
    obtain ⟨hu, hdb⟩ := h2
    subst hu
    subst hdb
    exact ⟨rfl, rfl, rfl⟩

/-- **C10**.  `register` hard-codes role `user` for the created
identity regardless of the request contents: the direct-authentication
(`userOut`) branch is unreachable, and every successful (201) register
appends exactly one identity, of role `user`, and answers with a
pending-OTP reference. -/
theorem register_role_always_user
    (env : Env) (st : ServerState) (sidOpt : Option Nat)
    (name email password otpDraw : String) (now : Nat) :
    (∀ id n e rl, (registerRoute env st sidOpt name email password otpDraw now).resp.body ≠
        Body.userOut id n e rl) ∧
    ((registerRoute env st sidOpt name email password otpDraw now).resp.status = 201 →
      ∃ u, (registerRoute env st sidOpt name email password otpDraw now).st.db.users =
          st.db.users ++ [u] ∧ u.role = Role.user ∧
        (registerRoute env st sidOpt name email password otpDraw now).resp.body =
          Body.pendingOtp true u.id "Please verify OTP to complete registration" otpDraw) := by
  simp only [registerRoute]
  split
  · exact ⟨by simp, by simp⟩
  · split
    · exact ⟨by simp, by simp⟩
    · split
      · exact ⟨by simp, by simp⟩
      · rename_i user db1 heq
        obtain ⟨hrole, husers, hotps⟩ := createUser_ok _ _ _ _ _ _ _ _ heq
        split
        · refine ⟨by simp, fun _ => ⟨user, ?_, hrole, by simp⟩⟩
          show (createOtpCode db1 user.id otpDraw (now + OTP_TTL_MS) now).users =
            st.db.users ++ [user]
          calc (createOtpCode db1 user.id otpDraw (now + OTP_TTL_MS) now).users
              = db1.users := rfl
            _ = (resolveSession st sidOpt).2.2.db.users ++ [user] := husers
            _ = st.db.users ++ [user] := by rw [resolveSession_db]
        · rename_i hne
          exact absurd hrole hne

/-- **C10** (witness): a fresh registration at the seeded store ends in
201 with a pending-OTP reference for a role-`user` identity. -/
theorem register_role_always_user_witness :
    ∃ u, (registerRoute exEnv exState none "Alice" "alice@example.com" "Password1" "654321" 0).st.db.users
        = exState.db.users ++ [u] ∧ u.role = Role.user ∧
      (registerRoute exEnv exState none "Alice" "alice@example.com" "Password1" "654321" 0).resp.body
        = Body.pendingOtp true u.id "Please verify OTP to complete registration" "654321" :=
  (register_role_always_user exEnv exState none "Alice" "alice@example.com" "Password1"
    "654321" 0).2 (by decide)

/-- **C6**.  `login` issues an OTP challenge exactly when the verified
identity's role is `user` (pending-OTP response, challenge stored, no
session write), and authenticates directly exactly when the role is
`admin`/`editor` (no OTP challenge stored — the database is untouched);
`register` only ever issues challenges for role-`user` identities (any
run either leaves the OTP table untouched or answers with a
pending-OTP reference for a role-`user` identity). -/
theorem otp_challenge_iff_user_role
    (env : Env) (st : ServerState) (sidOpt : Option Nat)
    (email password otpDraw : String) (now : Nat) (u : DbUser)
    (hv : env.emailFormatOk email = true) (hp : 1 ≤ password.length)
    (hu : findUserByEmail st.db (toLowerStr email) = some u)
    (hbc : env.bcryptCompare password u.password_hash = true) :
    (u.role = Role.user →
      (loginRoute env st sidOpt email password otpDraw now).resp =
        ⟨200, Body.pendingOtp true u.id "Please enter OTP sent to your email" otpDraw⟩ ∧
      (loginRoute env st sidOpt email password otpDraw now).st.db =
        createOtpCode st.db u.id otpDraw (now + OTP_TTL_MS) now ∧
      (loginRoute env st sidOpt email password otpDraw now).st.sessions =
        (resolveSession st sidOpt).2.2.sessions) ∧
    (¬ u.role = Role.user →
      (loginRoute env st sidOpt email password otpDraw now).resp =
        ⟨200, Body.userOut u.id u.name u.email u.role⟩ ∧
      (loginRoute env st sidOpt email password otpDraw now).st.db = st.db) ∧
    (∀ (st2 : ServerState) (sid2 : Option Nat) (n2 e2 p2 o2 : String) (t2 : Nat),
      (registerRoute env st2 sid2 n2 e2 p2 o2 t2).st.db.otps = st2.db.otps ∨
      ∃ u2 : DbUser, u2.role = Role.user ∧
        (registerRoute env st2 sid2 n2 e2 p2 o2 t2).resp.body =
          Body.pendingOtp true u2.id "Please verify OTP to complete registration" o2) := by
  have hu' : findUserByEmail (resolveSession st sidOpt).2.2.db (toLowerStr email) = some u := by
    rw [resolveSession_db]
    exact hu
  refine ⟨fun hrole => ?_, fun hrole => ?_, fun st2 sid2 n2 e2 p2 o2 t2 => ?_⟩
  · refine ⟨?_, ?_, ?_⟩ <;>
      simp [loginRoute, hu, hu', hv, hp, hbc, hrole, resolveSession_db]
  · refine ⟨?_, ?_⟩ <;>
      simp [loginRoute, hu, hu', hv, hp, hbc, hrole, resolveSession_db,
        putSession_db, regenerateSession_db]
  · simp only [registerRoute]
    split
    · left
      show (resolveSession st2 sid2).2.2.db.otps = st2.db.otps
      rw [resolveSession_db]
    · split
      · left
        show (resolveSession st2 sid2).2.2.db.otps = st2.db.otps
        rw [resolveSession_db]
      · split
        · left
          show (resolveSession st2 sid2).2.2.db.otps = st2.db.otps
          rw [resolveSession_db]
        · rename_i user db1 heq
          obtain ⟨hrole2, husers2, hotps2⟩ := createUser_ok _ _ _ _ _ _ _ _ heq
          split
          · right
            exact ⟨user, hrole2, by simp⟩
          · rename_i hne
            exact absurd hrole2 hne

/-- **C6** (witness): the login conclusions at the seeded store, for
the role-`user` account and for the admin account. -/
theorem otp_challenge_iff_user_role_witness :
    ((loginRoute exEnv exState none "user@example.com" "User123!" "654321" 0).resp =
        ⟨200, Body.pendingOtp true 1 "Please enter OTP sent to your email" "654321"⟩ ∧
      (loginRoute exEnv exState none "user@example.com" "User123!" "654321" 0).st.db =
        createOtpCode exState.db 1 "654321" (0 + OTP_TTL_MS) 0 ∧
      (loginRoute exEnv exState none "user@example.com" "User123!" "654321" 0).st.sessions =
        (resolveSession exState none).2.2.sessions) ∧
    ((loginRoute exEnv exState none "admin@example.com" "Admin123!" "654321" 0).resp =
        ⟨200, Body.userOut 2 "Admin User" "admin@example.com" Role.admin⟩ ∧
      (loginRoute exEnv exState none "admin@example.com" "Admin123!" "654321" 0).st.db =
        exState.db) :=
  ⟨(otp_challenge_iff_user_role exEnv exState none "user@example.com" "User123!" "654321" 0
      exUser (by decide) (by decide) (by decide) (by decide)).1 (by decide),
   (otp_challenge_iff_user_role exEnv exState none "admin@example.com" "Admin123!" "654321" 0
      exAdmin (by decide) (by decide) (by decide) (by decide)).2.1 (by decide)⟩

/-- An instant more than 25 minutes after the last activity (1) of the
authenticated session in `exStateAuth`. -/
def nowIdle : Nat := AFK_TIMEOUT_MS + 2

/-- **C1** (counterexample).  A session idle beyond the 25-minute AFK
threshold still passes `requireAuth` — the gate in front of every
protected handler — untouched: the protected-action attempt is not
rejected as expired and the session is not destroyed. -/
theorem C1_counterexample :
    AFK_TIMEOUT_MS < nowIdle - 1 ∧
    (requireAuth exStateAuth (some 0)).1 =
      Except.ok ⟨1, Role.user, "Regular User", "user@example.com"⟩ ∧
    (requireAuth exStateAuth (some 0)).2.2.sessions 0 = some ⟨some 1, some 1, none⟩ :=
  ⟨by decide, rfl, rfl⟩

/-- **C1** (amended).  The 25-minute AFK threshold is enforced only by
the explicit `GET /check-activity` endpoint: when that endpoint is
called on an authenticated session whose last activity is more than
`AFK_TIMEOUT_MS` in the past (and nonzero), it answers
`{active:false, reason:'afk_timeout'}`, destroys the session
server-side, and clears the cookie; but `requireAuth`, which guards the
protected handlers, performs no idle check, so the same idle-expired
session still passes any protected-action attempt. -/
theorem afk_enforced_only_by_check_activity
    (st : ServerState) (sid : Nat) (sess : Session) (uid la now : Nat)
    (hs : st.sessions sid = some sess) (huid : sess.userId = some uid)
    (hla : sess.lastActivity = some la) (hla0 : la ≠ 0)
    (hidle : AFK_TIMEOUT_MS < now - la) :
    (checkActivityRoute st (some sid) now).resp =
      ⟨200, Body.activeReason false "afk_timeout"⟩ ∧
    (checkActivityRoute st (some sid) now).st.sessions sid = none ∧
    (checkActivityRoute st (some sid) now).sid = none ∧
    (∀ u, findUserById st.db uid = some u →
      (requireAuth st (some sid)).1 = Except.ok ⟨u.id, u.role, u.name, u.email⟩ ∧
      (requireAuth st (some sid)).2.2.sessions sid = some sess) := by
  have hres := resolveSession_live st sid sess hs
  have hguard : afkGuard sess.lastActivity now = true := by
    simp [afkGuard, hla, hla0, hidle]
  refine ⟨?_, ?_, ?_, ?_⟩
  · simp [checkActivityRoute, hres, huid, hguard]
  · simp [checkActivityRoute, hres, huid, hguard, destroySession]
  · simp [checkActivityRoute, hres, huid, hguard]
  · intro u hu
    constructor
    · simp [requireAuth, hres, huid, hu]
    · simp [requireAuth, hres, huid, hu, hs]

/-- **C1** (witness): the amended statement at the seeded store, 25
minutes and change after the last heartbeat. -/
theorem afk_enforced_only_by_check_activity_witness :
    (checkActivityRoute exStateAuth (some 0) nowIdle).resp =
      ⟨200, Body.activeReason false "afk_timeout"⟩ ∧
    (checkActivityRoute exStateAuth (some 0) nowIdle).st.sessions 0 = none ∧
    (checkActivityRoute exStateAuth (some 0) nowIdle).sid = none ∧
    (∀ u, findUserById exStateAuth.db 1 = some u →
      (requireAuth exStateAuth (some 0)).1 = Except.ok ⟨u.id, u.role, u.name, u.email⟩ ∧
      (requireAuth exStateAuth (some 0)).2.2.sessions 0 = some ⟨some 1, some 1, none⟩) :=
  afk_enforced_only_by_check_activity exStateAuth 0 ⟨some 1, some 1, none⟩ 1 1 nowIdle
    (by decide) (by decide) (by decide) (by decide) (by decide)

/-- Equation for the direct-authentication path of `POST /login`
(privileged role, valid credentials, live request session). -/
theorem loginRoute_privileged_eq
    (env : Env) (st : ServerState) (sid0 : Nat) (sess : Session)
    (email password otpDraw : String) (now : Nat) (u : DbUser)
    (hs : st.sessions sid0 = some sess)
    (hv : env.emailFormatOk email = true) (hp : 1 ≤ password.length)
    (hu : findUserByEmail st.db (toLowerStr email) = some u)
    (hbc : env.bcryptCompare password u.password_hash = true)
    (hrole : ¬ u.role = Role.user) :
    loginRoute env st (some sid0) email password otpDraw now =
      ⟨⟨200, Body.userOut u.id u.name u.email u.role⟩,
       putSession (regenerateSession st sid0).2 (regenerateSession st sid0).1
         ⟨some u.id, some now, none⟩,
       some (regenerateSession st sid0).1,
       [⟨"info", "login_success", none⟩]⟩ := by
  have hres := resolveSession_live st sid0 sess hs
  simp [loginRoute, hres, hu, hv, hp, hbc, hrole]

/-- Equation for the success path of `POST /verify-otp`
(existing identity, valid unconsumed unexpired code, live request
session). -/
theorem verifyOtpRoute_success_eq
    (st : ServerState) (sid0 : Nat) (sess : Session)
    (userId : Nat) (otp : String) (now : Nat) (u : DbUser)
    (hs : st.sessions sid0 = some sess)
    (hlen : otp.length = 6)
    (hu : findUserById st.db userId = some u)
    (hok : (verifyOtpCode st.db userId otp now).1 = true) :
    verifyOtpRoute st (some sid0) userId otp now =
      ⟨⟨200, Body.userOut u.id u.name u.email u.role⟩,
       putSession
         (regenerateSession { st with db := (verifyOtpCode st.db userId otp now).2 } sid0).2
         (regenerateSession { st with db := (verifyOtpCode st.db userId otp now).2 } sid0).1
         ⟨some u.id, some now, none⟩,
       some (regenerateSession { st with db := (verifyOtpCode st.db userId otp now).2 } sid0).1,
       [⟨"info", "otp_verified", none⟩]⟩ := by
  have hres := resolveSession_live st sid0 sess hs
  simp [verifyOtpRoute, hres, hu, hlen, hok]

/-- **C4**.  On both successful authentication transitions — direct
login of a privileged role and OTP verification of a `user` role — the
session identifier in use afterward is the freshly drawn `st.nextSid`,
different from every identifier used beforehand (all of which lie below
the freshness counter); the fresh session is the one bound to the
identity; and the pre-authentication identifier is destroyed
server-side and stays dead (never live, never authenticated) across
every subsequent request sequence. -/
theorem auth_regenerates_session
    (env : Env) (st : ServerState) (sid0 : Nat) (sess : Session)
    (hinv : SidInv st) (hs : st.sessions sid0 = some sess) :
    sid0 < st.nextSid ∧
    (∀ (email password otpDraw : String) (now : Nat) (u : DbUser),
      env.emailFormatOk email = true → 1 ≤ password.length →
      findUserByEmail st.db (toLowerStr email) = some u →
      env.bcryptCompare password u.password_hash = true →
      ¬ u.role = Role.user →
      (loginRoute env st (some sid0) email password otpDraw now).sid = some st.nextSid ∧
      (∀ j, j < st.nextSid →
        (loginRoute env st (some sid0) email password otpDraw now).sid ≠ some j) ∧
      authedUser (loginRoute env st (some sid0) email password otpDraw now).st st.nextSid =
        some u.id ∧
      (∀ ops : List Op,
        (runOps env (loginRoute env st (some sid0) email password otpDraw now).st ops).sessions
            sid0 = none ∧
        authedUser
          (runOps env (loginRoute env st (some sid0) email password otpDraw now).st ops)
          sid0 = none)) ∧
    (∀ (userId : Nat) (otp : String) (now : Nat) (u : DbUser),
      otp.length = 6 →
      findUserById st.db userId = some u →
      (verifyOtpCode st.db userId otp now).1 = true →
      (verifyOtpRoute st (some sid0) userId otp now).sid = some st.nextSid ∧
      (∀ j, j < st.nextSid →
        (verifyOtpRoute st (some sid0) userId otp now).sid ≠ some j) ∧
      authedUser (verifyOtpRoute st (some sid0) userId otp now).st st.nextSid = some u.id ∧
      (∀ ops : List Op,
        (runOps env (verifyOtpRoute st (some sid0) userId otp now).st ops).sessions sid0 =
            none ∧
        authedUser (runOps env (verifyOtpRoute st (some sid0) userId otp now).st ops) sid0 =
          none)) := by
  have hsid0 : sid0 < st.nextSid := by
    by_contra hle
    push_neg at hle
    rw [hinv sid0 hle] at hs
    cases hs
  have hne : sid0 ≠ st.nextSid := Nat.ne_of_lt hsid0
  refine ⟨hsid0, ?_, ?_⟩
  · intro email password otpDraw now u hv hp hu hbc hrole
    rw [loginRoute_privileged_eq env st sid0 sess email password otpDraw now u hs hv hp hu
      hbc hrole]
    have hdead : deadSid
        (putSession (regenerateSession st sid0).2 (regenerateSession st sid0).1
          ⟨some u.id, some now, none⟩) sid0 := by
      refine ⟨by show sid0 < st.nextSid + 1; omega, ?_⟩
      show (putSession (regenerateSession st sid0).2 (regenerateSession st sid0).1
        ⟨some u.id, some now, none⟩).sessions sid0 = none
      simp [putSession, regenerateSession, allocSession, destroySession, hne]
    refine ⟨rfl, ?_, ?_, ?_⟩
    · intro j hj hjeq
      have : st.nextSid = j := by
        simpa using hjeq
      omega
    · simp [authedUser, putSession, regenerateSession, allocSession, destroySession]
    · intro ops
      have hd := deadSid_runOps env _ ops sid0 hdead
      exact ⟨hd.2, by simp [authedUser, hd.2]⟩
  · intro userId otp now u hlen hu hok
    rw [verifyOtpRoute_success_eq st sid0 sess userId otp now u hs hlen hu hok]
    have hdead : deadSid
        (putSession
          (regenerateSession { st with db := (verifyOtpCode st.db userId otp now).2 } sid0).2
          (regenerateSession { st with db := (verifyOtpCode st.db userId otp now).2 } sid0).1
          ⟨some u.id, some now, none⟩) sid0 := by
      refine ⟨by show sid0 < st.nextSid + 1; omega, ?_⟩
      show (putSession
        (regenerateSession { st with db := (verifyOtpCode st.db userId otp now).2 } sid0).2
        (regenerateSession { st with db := (verifyOtpCode st.db userId otp now).2 } sid0).1
        ⟨some u.id, some now, none⟩).sessions sid0 = none
      simp [putSession, regenerateSession, allocSession, destroySession, hne]
    refine ⟨rfl, ?_, ?_, ?_⟩
    · intro j hj hjeq
      have : st.nextSid = j := by
        simpa using hjeq
      omega
    · simp [authedUser, putSession, regenerateSession, allocSession, destroySession]
    · intro ops
      have hd := deadSid_runOps env _ ops sid0 hdead
      exact ⟨hd.2, by simp [authedUser, hd.2]⟩

/-- **C4** (witness): the login conclusions for an admin login at the
seeded store with one live pre-authentication session (identifier 0). -/
theorem auth_regenerates_session_witness :
    (loginRoute exEnv exStateAuth (some 0) "admin@example.com" "Admin123!" "999999" 5).sid =
      some exStateAuth.nextSid ∧
    (∀ j, j < exStateAuth.nextSid →
      (loginRoute exEnv exStateAuth (some 0) "admin@example.com" "Admin123!" "999999" 5).sid ≠
        some j) ∧
    authedUser
      (loginRoute exEnv exStateAuth (some 0) "admin@example.com" "Admin123!" "999999" 5).st
      exStateAuth.nextSid = some exAdmin.id ∧
    (∀ ops : List Op,
      (runOps exEnv
        (loginRoute exEnv exStateAuth (some 0) "admin@example.com" "Admin123!" "999999" 5).st
        ops).sessions 0 = none ∧
      authedUser
        (runOps exEnv
          (loginRoute exEnv exStateAuth (some 0) "admin@example.com" "Admin123!" "999999" 5).st
          ops) 0 = none) :=
  (auth_regenerates_session exEnv exStateAuth 0 ⟨some 1, some 1, none⟩
      (fun t ht => if_neg (by have h1 : 1 ≤ t := ht; omega)) (by decide)).2.1
    "admin@example.com" "Admin123!" "999999" 5 exAdmin
    (by decide) (by decide) (by decide) (by decide) (by decide)

/-- All stored CSRF secrets lie below the freshness counter, and no two
distinct sessions hold the same secret (true of every reachable state,
since secrets are only ever drawn fresh). -/
def SecretInv (st : ServerState) : Prop :=
  (∀ t s k, st.sessions t = some s → s.csrfSecret = some k → k < st.nextSecret) ∧
  (∀ t₁ t₂ s₁ s₂ k, st.sessions t₁ = some s₁ → st.sessions t₂ = some s₂ →
    s₁.csrfSecret = some k → s₂.csrfSecret = some k → t₁ = t₂)

/-- **C8**.  A CSRF token issued for session S₁ is rejected by the
`csurf` validation when presented under any other live session S₂, and
also under the session regenerated from S₁ (regeneration discards the
session record, so the rotated secret no longer validates the old
token). -/
theorem csrf_token_rejected_cross_session
    (st : ServerState) (s1 s2 : Nat) (sess1 sess2 : Session)
    (hinv : SecretInv st)
    (hs1 : st.sessions s1 = some sess1) (hs2 : st.sessions s2 = some sess2)
    (hne : s2 ≠ s1) :
    ∃ tok,
      (csrfTokenRoute st (some s1)).resp = ⟨200, Body.csrfTokenBody tok⟩ ∧
      (csrfCheck (csrfTokenRoute st (some s1)).st (some s2) (some tok)).1 = false ∧
      (csrfCheck
        (regenerateSession (csrfTokenRoute st (some s1)).st s1).2
        (some (regenerateSession (csrfTokenRoute st (some s1)).st s1).1)
        (some tok)).1 = false := by
  have hres1 := resolveSession_live st s1 sess1 hs1
  cases hc1 : sess1.csrfSecret with
  | some k =>
    have hk : k < st.nextSecret := hinv.1 s1 sess1 k hs1 hc1
    have hT : csrfTokenRoute st (some s1) = ⟨⟨200, Body.csrfTokenBody k⟩, st, some s1, []⟩ := by
      simp [csrfTokenRoute, hres1, csrfIssue, hc1]
    refine ⟨k, by rw [hT], ?_, ?_⟩
    · rw [hT]
      show (csrfCheck st (some s2) (some k)).1 = false
      have hres2 := resolveSession_live st s2 sess2 hs2
      cases hc2 : sess2.csrfSecret with
      | some k2 =>
        simp only [csrfCheck, hres2, csrfIssue, hc2, decide_eq_false_iff_not]
        intro he
        rw [Option.some.injEq] at he
        exact hne (hinv.2 s2 s1 sess2 sess1 k hs2 hs1 (he ▸ hc2) hc1)
      | none =>
        simp only [csrfCheck, hres2, csrfIssue, hc2, decide_eq_false_iff_not]
        intro he
        rw [Option.some.injEq] at he
        omega
    · rw [hT]
      show (csrfCheck (regenerateSession st s1).2
        (some (regenerateSession st s1).1) (some k)).1 = false
      have hlive : (regenerateSession st s1).2.sessions (regenerateSession st s1).1 =
          some emptySession := by
        simp [regenerateSession, allocSession, destroySession, putSession]
      have hres3 := resolveSession_live _ _ _ hlive
      simp only [csrfCheck, hres3, csrfIssue, emptySession, decide_eq_false_iff_not]
      intro he
      rw [Option.some.injEq] at he
      have hsec : (regenerateSession st s1).2.nextSecret = st.nextSecret := rfl
      omega
  | none =>
    have hT : csrfTokenRoute st (some s1) =
        ⟨⟨200, Body.csrfTokenBody st.nextSecret⟩,
         putSession { st with nextSecret := st.nextSecret + 1 } s1
           { sess1 with csrfSecret := some st.nextSecret },
         some s1, []⟩ := by
      simp [csrfTokenRoute, hres1, csrfIssue, hc1]
    refine ⟨st.nextSecret, by rw [hT], ?_, ?_⟩
    · rw [hT]
      have hs2A : (putSession { st with nextSecret := st.nextSecret + 1 } s1
          { sess1 with csrfSecret := some st.nextSecret }).sessions s2 = some sess2 := by
        simp [putSession, hne, hs2]
      have hres2 := resolveSession_live _ _ _ hs2A
      cases hc2 : sess2.csrfSecret with
      | some k2 =>
        have hk2 : k2 < st.nextSecret := hinv.1 s2 sess2 k2 hs2 hc2
        simp only [csrfCheck, hres2, csrfIssue, hc2, decide_eq_false_iff_not]
        intro he
        rw [Option.some.injEq] at he
        omega
      | none =>
        simp only [csrfCheck, hres2, csrfIssue, hc2, decide_eq_false_iff_not]
        intro he
        rw [Option.some.injEq] at he
        have hsec : (putSession { st with nextSecret := st.nextSecret + 1 } s1
            { sess1 with csrfSecret := some st.nextSecret }).nextSecret =
          st.nextSecret + 1 := rfl
        omega
    · rw [hT]
      have hlive : (regenerateSession
          (putSession { st with nextSecret := st.nextSecret + 1 } s1
            { sess1 with csrfSecret := some st.nextSecret }) s1).2.sessions
          (regenerateSession
            (putSession { st with nextSecret := st.nextSecret + 1 } s1
              { sess1 with csrfSecret := some st.nextSecret }) s1).1 =
          some emptySession := by
        simp [regenerateSession, allocSession, destroySession, putSession]
      have hres3 := resolveSession_live _ _ _ hlive
      simp only [csrfCheck, hres3, csrfIssue, emptySession, decide_eq_false_iff_not]
      intro he
      rw [Option.some.injEq] at he
      have hsec : (regenerateSession
          (putSession { st with nextSecret := st.nextSecret + 1 } s1
            { sess1 with csrfSecret := some st.nextSecret }) s1).2.nextSecret =
        st.nextSecret + 1 := rfl
      omega

/-- A state with two live sessions (0: authenticated, 1: anonymous) and
no CSRF secrets issued yet. -/
def exStateCsrf : ServerState :=
  ⟨exDb,
   fun t => if t = 0 then some ⟨some 1, some 1, none⟩
     else if t = 1 then some ⟨none, none, none⟩ else none,
   2, 0⟩

/-- **C8** (witness): the statement at a concrete two-session store. -/
theorem csrf_token_rejected_cross_session_witness :
    ∃ tok,
      (csrfTokenRoute exStateCsrf (some 0)).resp = ⟨200, Body.csrfTokenBody tok⟩ ∧
      (csrfCheck (csrfTokenRoute exStateCsrf (some 0)).st (some 1) (some tok)).1 = false ∧
      (csrfCheck
        (regenerateSession (csrfTokenRoute exStateCsrf (some 0)).st 0).2
        (some (regenerateSession (csrfTokenRoute exStateCsrf (some 0)).st 0).1)
        (some tok)).1 = false :=
  csrf_token_rejected_cross_session exStateCsrf 0 1 ⟨some 1, some 1, none⟩ ⟨none, none, none⟩
    (by
      have hfix : ∀ t s, exStateCsrf.sessions t = some s → s.csrfSecret = none := by
        intro t s hts
        by_cases h0 : t = 0
        · subst h0
          rw [show exStateCsrf.sessions 0 =
            some ⟨some 1, some 1, none⟩ from rfl] at hts
          injection hts with h
          rw [← h]
        · by_cases h1 : t = 1
          · subst h1
            rw [show exStateCsrf.sessions 1 =
              some ⟨none, none, none⟩ from rfl] at hts
            injection hts with h
            rw [← h]
          · have hnone : exStateCsrf.sessions t = none := by
              show (if t = 0 then some (⟨some 1, some 1, none⟩ : Session)
                else if t = 1 then some ⟨none, none, none⟩ else none) = none
              rw [if_neg h0, if_neg h1]
            rw [hnone] at hts
            exact Option.noConfusion hts
      constructor
      · intro t s k hts hsk
        rw [hfix t s hts] at hsk
        exact Option.noConfusion hsk
      · intro t1 t2 sa sb k hta htb hska hskb
        rw [hfix t1 sa hta] at hska
        exact Option.noConfusion hska)
    (by decide) (by decide) (by decide)

end CulinaryHub
